import Mathlib

/-!
Shallow embedding of the geospatial matching pipeline of `thirsty`
(src/thirsty/cli.py): track geometry, bounding-box computation
(`get_bounds`), great-circle distance (`haversine`), POI query text
construction (`POI.get_query_line`, `query_POIs`), proximity filtering
(`filter_pois_near_track`) and waypoint merging (`add_waypoints_to_gpx`).

Python floats are modelled as rationals (every IEEE float is a rational
and the comparisons the code performs on them are exact), except inside
`haversine`, whose transcendental functions land in the reals.
Python-level runtime exceptions are modelled with `Except PyErr`.
-/

namespace Thirsty

/-- The Python runtime exceptions the embedded code can raise:
dict lookup of a missing key (KeyError), `min`/`max` of an empty iterable
(ValueError), `str + None` (TypeError) and a reference to an undefined
variable (NameError). -/
inductive PyErr where
  | keyError
  | valueError
  | typeError
  | nameError
  deriving DecidableEq, Repr

/-- A GPX track point: a latitude/longitude pair (elevation and time are
pass-through and never read by the pipeline, so they are omitted). -/
structure TrackPoint where
  latitude : ℚ
  longitude : ℚ
  deriving DecidableEq, Repr

/-- A GPX track segment: an ordered list of track points. -/
structure Segment where
  points : List TrackPoint
  deriving DecidableEq, Repr

/-- A GPX track: an ordered list of segments. -/
structure Track where
  segments : List Segment
  deriving DecidableEq, Repr

/-- A GPX waypoint as `add_waypoints_to_gpx` builds it: coordinates plus
name, description and symbol strings. -/
structure Waypoint where
  latitude : ℚ
  longitude : ℚ
  name : String
  description : String
  symbol : String
  deriving DecidableEq, Repr

/-- A parsed GPX document: its tracks and its waypoint list. -/
structure GPX where
  tracks : List Track
  waypoints : List Waypoint
  deriving DecidableEq, Repr

/-- A raw POI element returned by the Overpass query: a JSON object read
through `poi["lat"]`, `poi["lon"]` and `poi["tags"]`.  `lat`/`lon` are
`Option` because a malformed element may lack them, in which case the
dict lookup raises KeyError. -/
structure POICand where
  lat : Option ℚ
  lon : Option ℚ
  tags : List (String × String)
  deriving DecidableEq, Repr

/-- The flattened point list `[pt for trk in gpx.tracks for seg in
trk.segments for pt in seg.points]`, the traversal order every generator
expression in `cli.py` uses. -/
def allPoints (gpx : GPX) : List TrackPoint :=
  gpx.tracks.flatMap fun trk => trk.segments.flatMap fun seg => seg.points

/-- Python `min` over a list: raises ValueError on an empty iterable,
otherwise folds the binary minimum over the elements. -/
def pyMin (xs : List ℚ) : Except PyErr ℚ :=
  match xs with
  | [] => .error .valueError
  | x :: rest => .ok (rest.foldl min x)

/-- Python `max` over a list: raises ValueError on an empty iterable,
otherwise folds the binary maximum over the elements. -/
def pyMax (xs : List ℚ) : Except PyErr ℚ :=
  match xs with
  | [] => .error .valueError
  | x :: rest => .ok (rest.foldl max x)

/-- Embeds `get_bounds(gpx)`: four generator passes computing
`min`/`max` of latitude and longitude over all points of all segments of
all tracks, returned as `(min_lat, min_lon, max_lat, max_lon)`, i.e.
`(south, west, north, east)`.  Python's `min`/`max` raise ValueError on
an empty sequence, so an empty track yields an error. -/
def get_bounds (gpx : GPX) : Except PyErr (ℚ × ℚ × ℚ × ℚ) := do
  let min_lat ← pyMin ((allPoints gpx).map TrackPoint.latitude)
  let max_lat ← pyMax ((allPoints gpx).map TrackPoint.latitude)
  let min_lon ← pyMin ((allPoints gpx).map TrackPoint.longitude)
  let max_lon ← pyMax ((allPoints gpx).map TrackPoint.longitude)
  return (min_lat, min_lon, max_lat, max_lon)

/-- Embeds `math.radians(x)`: degrees to radians, `x * pi / 180`. -/
noncomputable def radians (x : ℚ) : ℝ := x * Real.pi / 180

/-- Embeds `math.atan2(y, x)`: the angle of the point `(x, y)`, by the
standard case split C's `atan2` (and hence Python's) performs. -/
noncomputable def atan2 (y x : ℝ) : ℝ :=
  if 0 < x then Real.arctan (y / x)
  else if x < 0 then
    if 0 ≤ y then Real.arctan (y / x) + Real.pi
    else Real.arctan (y / x) - Real.pi
  else
    if 0 < y then Real.pi / 2
    else if y < 0 then -(Real.pi / 2)
    else 0

/-- Embeds `haversine(lat1, lon1, lat2, lon2)`: great-circle distance in
meters between two points given in degrees, with Earth radius
R = 6371000 m. -/
noncomputable def haversine (lat1 lon1 lat2 lon2 : ℚ) : ℝ :=
  let R : ℝ := 6371000
  let phi1 := radians lat1
  let phi2 := radians lat2
  let d_phi := radians (lat2 - lat1)
  let d_lambda := radians (lon2 - lon1)
  let a := Real.sin (d_phi / 2) ^ 2 +
    Real.cos phi1 * Real.cos phi2 * Real.sin (d_lambda / 2) ^ 2
  let c := 2 * atan2 (Real.sqrt a) (Real.sqrt (1 - a))
  R * c

open Classical in
/-- The loop body of `filter_pois_near_track` over the candidate list:
each candidate's `poi["lat"]`, `poi["lon"]` lookups raise KeyError when
the field is missing; otherwise the candidate is kept exactly when
`any(haversine(lat, lon, pt.latitude, pt.longitude) < max_distance_m
for pt in points)` holds. -/
noncomputable def filterLoop (points : List TrackPoint) (max_distance_m : ℚ) :
    List POICand → Except PyErr (List POICand)
  | [] => .ok []
  | poi :: rest =>
    match poi.lat, poi.lon with
    | some lat, some lon =>
      if ∃ pt ∈ points, haversine lat lon pt.latitude pt.longitude <
          (max_distance_m : ℝ) then
        (filterLoop points max_distance_m rest).map fun l => poi :: l
      else
        filterLoop points max_distance_m rest
    | _, _ => .error .keyError

/-- Embeds `filter_pois_near_track(gpx, pois, max_distance_m=100)`:
flattens the track points once, then keeps, in order, the candidates
with some track point at haversine distance strictly below the
threshold. -/
noncomputable def filter_pois_near_track (gpx : GPX) (pois : List POICand)
    (max_distance_m : ℚ := 100) : Except PyErr (List POICand) :=
  filterLoop (allPoints gpx) max_distance_m pois

/-- Embeds the body of `add_waypoints_to_gpx(gpx, pois)`: for each POI
in order, reads `poi["lat"]` and `poi["lon"]` (KeyError when missing)
and appends a waypoint with those coordinates, name "Water",
description "Water" and symbol "water-drop" to `gpx.waypoints`.
On a KeyError the model returns the error and drops the partial
mutation (the claims only concern well-formed candidate lists). -/
def add_waypoints_to_gpx (gpx : GPX) : List POICand → Except PyErr GPX
  | [] => .ok gpx
  | poi :: rest =>
    match poi.lat, poi.lon with
    | some la, some lo =>
      add_waypoints_to_gpx
        ⟨gpx.tracks, gpx.waypoints ++ [⟨la, lo, "Water", "Water", "water-drop"⟩]⟩
        rest
    | _, _ => .error .keyError

/-- The bounding-box argument object of the query builder (class `Area`). -/
structure Area where
  min_lat : ℚ
  min_lon : ℚ
  max_lat : ℚ
  max_lon : ℚ
  deriving DecidableEq, Repr

/-- Python `str` on an optional string, as an f-string renders it:
`None` prints as "None". -/
def pyStrOpt : Option String → String
  | none => "None"
  | some s => s

/-- A POI category descriptor (class `POI`): `POI.__init__` assigns
`self._primary = None` and `self._secondary = None` and ignores every
argument it was given, so a freshly constructed `POI` always carries
`(none, none)`. -/
structure POIcat where
  _primary : Option String
  _secondary : Option String
  deriving DecidableEq, Repr

/-- The object `POI.__init__` produces, whatever its arguments: both
tag fields are overwritten with `None`. -/
def POIcat.init : POIcat := ⟨none, none⟩

/-- Embeds `POI.__str__`: `f'"{self._primary}"'`, extended with
`f'="{self._secondary}"'` when `_secondary` is not `None`. -/
def POIcat.toStr (p : POIcat) : String :=
  let ret := "\"" ++ pyStrOpt p._primary ++ "\""
  match p._secondary with
  | some s => ret ++ "=\"" ++ s ++ "\""
  | none => ret

/-- The f-string the body of `POI.get_query_line` evaluates,
`f"node[{str(self)}](str(area));"`: only `str(self)` is interpolated;
the characters `(str(area));` are literal text of the string because
they are not inside braces.  The area argument is therefore never
rendered into the line. -/
def POIcat.query_line_text (p : POIcat) (_area : Area) : String :=
  "node[" ++ p.toStr ++ "](str(area));"

/-- Embeds `POI.get_query_line(area)`: the body evaluates the f-string
`POIcat.query_line_text` and discards it — the function has no `return`
statement, so it returns `None` for every input. -/
def POIcat.get_query_line (p : POIcat) (area : Area) : Option String :=
  let _text := p.query_line_text area
  none

/-- Python `"  " + v` where `v : Option String`: concatenation when `v`
is a string, TypeError when `v` is `None`. -/
def pyConcat (a : String) : Option String → Except PyErr String
  | some s => .ok (a ++ s)
  | none => .error .typeError

/-- Embeds the query-construction part of `query_POIs(pois, min_lat,
min_lon, max_lat, max_lon)`, up to the local variable `query` (the
subsequent network POST is an external collaborator and is not
modelled): builds the `Area`, prefixes each `get_query_line` result
with two spaces, wraps the lines in the `[out:json][timeout:25];` /
union block and joins them with newlines. -/
def query_POIs_text (pois : List POIcat) (min_lat min_lon max_lat max_lon : ℚ) :
    Except PyErr String := do
  let area : Area := ⟨min_lat, min_lon, max_lat, max_lon⟩
  let poi_lines ← pois.mapM fun p => pyConcat "  " (p.get_query_line area)
  return String.intercalate "\n"
    (["[out:json][timeout:25];", "("] ++ poi_lines ++ [");", "out body;"])

/-- Embeds the call `Amenity(secondary)`: the body of
`Amenity.__init__` is `super().__init__(primary="amenity",
secondary=secondary, *args, **kwargs)`, and the names `args` and
`kwargs` are not defined in its scope, so evaluating the argument list
raises NameError before `POI.__init__` ever runs. -/
def Amenity.init (_secondary : String) : Except PyErr POIcat :=
  .error .nameError

/-- Embeds the call `Natural(secondary)`: like `Amenity.__init__`, its
body references the undefined names `args` and `kwargs`, so it raises
NameError for every argument. -/
def Natural.init (_secondary : String) : Except PyErr POIcat :=
  .error .nameError

/-- Embeds the query-construction part of `query_drinking_water`: the
list literal `[Amenity("drinking_water"), Natural("spring")]` evaluates
its elements in order, so the first constructor call's NameError
propagates; only if both succeeded would `query_POIs` run. -/
def query_drinking_water_text (min_lat min_lon max_lat max_lon : ℚ) :
    Except PyErr String := do
  let a ← Amenity.init "drinking_water"
  let n ← Natural.init "spring"
  query_POIs_text [a, n] min_lat min_lon max_lat max_lon

/-- A two-point GPX document used to instantiate the theorems below. -/
def sampleGPX : GPX := ⟨[⟨[⟨[⟨0, 0⟩, ⟨1, 2⟩]⟩]⟩], []⟩

/-- A GPX document with one track and one segment but zero points. -/
def emptyGPX : GPX := ⟨[⟨[⟨[]⟩]⟩], []⟩

theorem foldl_min_le_init (xs : List ℚ) : ∀ x : ℚ, xs.foldl min x ≤ x := by
  induction xs with
  | nil => intro x; simp
  | cons a t ih => intro x; exact le_trans (ih (min x a)) (min_le_left x a)

theorem foldl_min_le_mem (xs : List ℚ) : ∀ x : ℚ, ∀ y ∈ xs, xs.foldl min x ≤ y := by
  induction xs with
  | nil => intro x y hy; simp at hy
  | cons a t ih =>
    intro x y hy
    rcases List.mem_cons.mp hy with h | h
    · subst h; exact le_trans (foldl_min_le_init t (min x y)) (min_le_right x y)
    · exact ih (min x a) y h

theorem foldl_min_mem (xs : List ℚ) :
    ∀ x : ℚ, xs.foldl min x = x ∨ xs.foldl min x ∈ xs := by
  induction xs with
  | nil => intro x; left; rfl
  | cons a t ih =>
    intro x
    rcases ih (min x a) with h | h
    · rcases min_choice x a with hc | hc
      · left; rw [List.foldl_cons, h, hc]
      · right; rw [List.foldl_cons, h, hc]; exact List.mem_cons_self a t
    · right; exact List.mem_cons_of_mem a h

theorem foldl_max_init_le (xs : List ℚ) : ∀ x : ℚ, x ≤ xs.foldl max x := by
  induction xs with
  | nil => intro x; simp
  | cons a t ih => intro x; exact le_trans (le_max_left x a) (ih (max x a))

theorem foldl_max_mem_le (xs : List ℚ) : ∀ x : ℚ, ∀ y ∈ xs, y ≤ xs.foldl max x := by
  induction xs with
  | nil => intro x y hy; simp at hy
  | cons a t ih =>
    intro x y hy
    rcases List.mem_cons.mp hy with h | h
    · subst h; exact le_trans (le_max_right x y) (foldl_max_init_le t (max x y))
    · exact ih (max x a) y h

theorem foldl_max_mem (xs : List ℚ) :
    ∀ x : ℚ, xs.foldl max x = x ∨ xs.foldl max x ∈ xs := by
  induction xs with
  | nil => intro x; left; rfl
  | cons a t ih =>
    intro x
    rcases ih (max x a) with h | h
    · rcases max_choice x a with hc | hc
      · left; rw [List.foldl_cons, h, hc]
      · right; rw [List.foldl_cons, h, hc]; exact List.mem_cons_self a t
    · right; exact List.mem_cons_of_mem a h

theorem pyMin_spec (xs : List ℚ) (h : xs ≠ []) :
    ∃ m, pyMin xs = .ok m ∧ m ∈ xs ∧ ∀ y ∈ xs, m ≤ y := by
  match xs, h with
  | x :: rest, _ =>
    refine ⟨rest.foldl min x, rfl, ?_, ?_⟩
    · rcases foldl_min_mem rest x with h1 | h1
      · rw [h1]; exact List.mem_cons_self x rest
      · exact List.mem_cons_of_mem x h1
    · intro y hy
      rcases List.mem_cons.mp hy with h1 | h1
      · subst h1; exact foldl_min_le_init rest y
      · exact foldl_min_le_mem rest x y h1

theorem pyMax_spec (xs : List ℚ) (h : xs ≠ []) :
    ∃ m, pyMax xs = .ok m ∧ m ∈ xs ∧ ∀ y ∈ xs, y ≤ m := by
  match xs, h with
  | x :: rest, _ =>
    refine ⟨rest.foldl max x, rfl, ?_, ?_⟩
    · rcases foldl_max_mem rest x with h1 | h1
      · rw [h1]; exact List.mem_cons_self x rest
      · exact List.mem_cons_of_mem x h1
    · intro y hy
      rcases List.mem_cons.mp hy with h1 | h1
      · subst h1; exact foldl_max_init_le rest y
      · exact foldl_max_mem_le rest x y h1

/-- C2: on a track with at least one point, `get_bounds` returns
`(south, west, north, east)` with `south ≤ north`, `west ≤ east`, every
track point's latitude in `[south, north]` and longitude in
`[west, east]`, and each of the four values attained by some point:
they are the minima/maxima of latitude and longitude over all points
across all segments. -/
theorem get_bounds_spec (gpx : GPX) (h : allPoints gpx ≠ []) :
    ∃ south west north east,
      get_bounds gpx = .ok (south, west, north, east) ∧
      south ≤ north ∧ west ≤ east ∧
      (∀ pt ∈ allPoints gpx,
        south ≤ pt.latitude ∧ pt.latitude ≤ north ∧
        west ≤ pt.longitude ∧ pt.longitude ≤ east) ∧
      (∃ pt ∈ allPoints gpx, pt.latitude = south) ∧
      (∃ pt ∈ allPoints gpx, pt.latitude = north) ∧
      (∃ pt ∈ allPoints gpx, pt.longitude = west) ∧
      (∃ pt ∈ allPoints gpx, pt.longitude = east) := by
  have hlat : (allPoints gpx).map TrackPoint.latitude ≠ [] := by
    simpa using h
  have hlon : (allPoints gpx).map TrackPoint.longitude ≠ [] := by
    simpa using h
  obtain ⟨mlat, hm1, hm2, hm3⟩ := pyMin_spec _ hlat
  obtain ⟨Mlat, hM1, hM2, hM3⟩ := pyMax_spec _ hlat
  obtain ⟨mlon, hn1, hn2, hn3⟩ := pyMin_spec _ hlon
  obtain ⟨Mlon, hN1, hN2, hN3⟩ := pyMax_spec _ hlon
  refine ⟨mlat, mlon, Mlat, Mlon, ?_, hm3 _ hM2, hn3 _ hN2, ?_, ?_, ?_, ?_, ?_⟩
  · simp only [get_bounds, hm1, hM1, hn1, hN1]
    rfl
  · intro pt hpt
    exact ⟨hm3 _ (List.mem_map_of_mem _ hpt), hM3 _ (List.mem_map_of_mem _ hpt),
      hn3 _ (List.mem_map_of_mem _ hpt), hN3 _ (List.mem_map_of_mem _ hpt)⟩
  · obtain ⟨pt, hpt, hq⟩ := List.mem_map.mp hm2
    exact ⟨pt, hpt, hq⟩
  · obtain ⟨pt, hpt, hq⟩ := List.mem_map.mp hM2
    exact ⟨pt, hpt, hq⟩
  · obtain ⟨pt, hpt, hq⟩ := List.mem_map.mp hn2
    exact ⟨pt, hpt, hq⟩
  · obtain ⟨pt, hpt, hq⟩ := List.mem_map.mp hN2
    exact ⟨pt, hpt, hq⟩

/-- Witness for C2: the two-point sample track has a nonempty point
list, and `get_bounds` on it satisfies the bounding-box contract. -/
theorem get_bounds_spec_witness :
    allPoints sampleGPX ≠ [] ∧
    ∃ south west north east,
      get_bounds sampleGPX = .ok (south, west, north, east) ∧
      south ≤ north ∧ west ≤ east ∧
      (∀ pt ∈ allPoints sampleGPX,
        south ≤ pt.latitude ∧ pt.latitude ≤ north ∧
        west ≤ pt.longitude ∧ pt.longitude ≤ east) ∧
      (∃ pt ∈ allPoints sampleGPX, pt.latitude = south) ∧
      (∃ pt ∈ allPoints sampleGPX, pt.latitude = north) ∧
      (∃ pt ∈ allPoints sampleGPX, pt.longitude = west) ∧
      (∃ pt ∈ allPoints sampleGPX, pt.longitude = east) :=
  ⟨by decide, get_bounds_spec sampleGPX (by decide)⟩

/-- C9: on a track with zero points across all segments, `get_bounds`
returns no bounding box: the first `min` raises ValueError (the
EmptyGeometry condition), which nothing in the pipeline catches. -/
theorem get_bounds_empty_track (gpx : GPX) (h : allPoints gpx = []) :
    get_bounds gpx = .error .valueError := by
  simp only [get_bounds, h, List.map_nil, pyMin]
  rfl

/-- Witness for C9: a GPX document with one track, one segment and no
points makes `get_bounds` signal ValueError. -/
theorem get_bounds_empty_track_witness :
    allPoints emptyGPX = [] ∧ get_bounds emptyGPX = .error .valueError :=
  ⟨rfl, get_bounds_empty_track emptyGPX rfl⟩

/-- C3: the query builder does not produce the documented clause.
The body of `POI.get_query_line` has no return statement, so the call
returns `None` instead of a clause; the f-string it evaluates and
discards never interpolates the bounding box (the characters
`(str(area));` are outside any braces and stay literal), and because
`POI.__init__` drops its arguments the rendered tag key is `"None"`.
Even a category carrying amenity=drinking_water would render with the
literal `(str(area));` in place of `(south,west,north,east)`. -/
theorem get_query_line_broken :
    POIcat.get_query_line POIcat.init ⟨0, 0, 1, 1⟩ = none ∧
    POIcat.query_line_text POIcat.init ⟨0, 0, 1, 1⟩ =
      "node[\"None\"](str(area));" ∧
    POIcat.query_line_text ⟨some "amenity", some "drinking_water"⟩ ⟨0, 0, 1, 1⟩ =
      "node[\"amenity\"=\"drinking_water\"](str(area));" :=
  ⟨rfl, rfl, rfl⟩

/-- C8: the query builder never yields query text for a nonempty
category list: `get_query_line` returns `None`, and prefixing it with
two spaces is `str + None`, a TypeError, raised before the query string
is assembled.  Only the degenerate empty category list yields text,
namely the fixed frame with an empty union block. -/
theorem query_POIs_text_outcome :
    query_POIs_text [POIcat.init] 0 0 1 1 = .error .typeError ∧
    query_POIs_text [] 0 0 1 1 =
      .ok "[out:json][timeout:25];\n(\n);\nout body;" :=
  ⟨rfl, rfl⟩

/-- C10: constructing an Amenity or a Natural raises NameError for
every argument (their bodies reference the undefined names `args` and
`kwargs`), so `query_drinking_water` fails while building its category
list, before any query text is produced or any request is issued. -/
theorem amenity_natural_nameError :
    (∀ s : String, Amenity.init s = .error .nameError) ∧
    (∀ s : String, Natural.init s = .error .nameError) ∧
    (∀ min_lat min_lon max_lat max_lon : ℚ,
      query_drinking_water_text min_lat min_lon max_lat max_lon =
        .error .nameError) :=
  ⟨fun _ => rfl, fun _ => rfl, fun _ _ _ _ => rfl⟩

theorem radians_sub_neg (p q : ℚ) : radians (p - q) = -radians (q - p) := by
  unfold radians
  push_cast
  ring

theorem sin_sq_radians_sub (p q : ℚ) :
    Real.sin (radians (p - q) / 2) ^ 2 = Real.sin (radians (q - p) / 2) ^ 2 := by
  rw [radians_sub_neg, neg_div, Real.sin_neg, neg_sq]

theorem arctan_nonneg_of_nonneg {x : ℝ} (hx : 0 ≤ x) : 0 ≤ Real.arctan x := by
  have h := Real.arctan_strictMono.monotone hx
  simpa [Real.arctan_zero] using h

theorem atan2_nonneg (y x : ℝ) (hy : 0 ≤ y) (hx : 0 ≤ x) : 0 ≤ atan2 y x := by
  unfold atan2
  split_ifs with h1 h2 h3 h4
  · exact arctan_nonneg_of_nonneg (div_nonneg hy h1.le)
  · linarith
  · linarith [Real.pi_pos]
  · linarith
  · exact le_refl 0

theorem haversine_self (lat lon : ℚ) : haversine lat lon lat lon = 0 := by
  have h0 : radians 0 = 0 := by simp [radians]
  simp [haversine, sub_self, h0, Real.sin_zero, Real.sqrt_zero, Real.sqrt_one,
    atan2, Real.arctan_zero]

theorem haversine_symm (lat1 lon1 lat2 lon2 : ℚ) :
    haversine lat1 lon1 lat2 lon2 = haversine lat2 lon2 lat1 lon1 := by
  simp only [haversine]
  rw [sin_sq_radians_sub lat2 lat1, sin_sq_radians_sub lon2 lon1,
    mul_comm (Real.cos (radians lat1)) (Real.cos (radians lat2))]

theorem haversine_nonneg (lat1 lon1 lat2 lon2 : ℚ) :
    0 ≤ haversine lat1 lon1 lat2 lon2 := by
  simp only [haversine]
  exact mul_nonneg (by norm_num)
    (mul_nonneg (by norm_num)
      (atan2_nonneg _ _ (Real.sqrt_nonneg _) (Real.sqrt_nonneg _)))

/-- C5: the haversine distance vanishes on equal inputs, is symmetric
in its two coordinate pairs, and is non-negative everywhere. -/
theorem haversine_metric_properties :
    (∀ lat lon : ℚ, haversine lat lon lat lon = 0) ∧
    (∀ lat1 lon1 lat2 lon2 : ℚ,
      haversine lat1 lon1 lat2 lon2 = haversine lat2 lon2 lat1 lon1) ∧
    (∀ lat1 lon1 lat2 lon2 : ℚ, 0 ≤ haversine lat1 lon1 lat2 lon2) :=
  ⟨haversine_self, haversine_symm, haversine_nonneg⟩

/-- A well-formed drinking-water candidate lying on the sample track's
first point. -/
def goodPOI : POICand := ⟨some 0, some 0, [("amenity", "drinking_water")]⟩

/-- A malformed candidate: its `lat` field is missing. -/
def badPOI : POICand := ⟨none, some 0, [("amenity", "drinking_water")]⟩

theorem filterLoop_ok (points : List TrackPoint) (d : ℚ) :
    ∀ pois : List POICand, (∀ p ∈ pois, p.lat ≠ none ∧ p.lon ≠ none) →
    ∃ out, filterLoop points d pois = .ok out ∧ out.Sublist pois ∧
      ∀ p ∈ pois, (p ∈ out ↔ ∃ pt ∈ points,
        haversine (p.lat.getD 0) (p.lon.getD 0) pt.latitude pt.longitude <
          (d : ℝ)) := by
  intro pois
  induction pois with
  | nil => intro _; exact ⟨[], rfl, List.Sublist.refl [], by simp⟩
  | cons poi rest ih =>
    intro hwf
    obtain ⟨la, hla⟩ :=
      Option.ne_none_iff_exists'.mp (hwf poi (List.mem_cons_self _ _)).1
    obtain ⟨lo, hlo⟩ :=
      Option.ne_none_iff_exists'.mp (hwf poi (List.mem_cons_self _ _)).2
    obtain ⟨out, hout, hsub, hmem⟩ :=
      ih fun p hp => hwf p (List.mem_cons_of_mem _ hp)
    have hgd_la : poi.lat.getD 0 = la := by rw [hla]; rfl
    have hgd_lo : poi.lon.getD 0 = lo := by rw [hlo]; rfl
    by_cases hc : ∃ pt ∈ points, haversine la lo pt.latitude pt.longitude < (d : ℝ)
    · refine ⟨poi :: out, ?_, hsub.cons₂ poi, ?_⟩
      · simp only [filterLoop, hla, hlo]
        rw [if_pos hc, hout]
        rfl
      · intro p hp
        constructor
        · intro hpo
          rcases List.mem_cons.mp hpo with h | h
          · subst h; rw [hgd_la, hgd_lo]; exact hc
          · exact (hmem p (hsub.subset h)).mp h
        · intro hnear
          rcases List.mem_cons.mp hp with h | h
          · subst h; exact List.mem_cons_self _ _
          · exact List.mem_cons_of_mem _ ((hmem p h).mpr hnear)
    · refine ⟨out, ?_, hsub.cons poi, ?_⟩
      · simp only [filterLoop, hla, hlo]
        rw [if_neg hc]
        exact hout
      · intro p hp
        constructor
        · intro hpo
          exact (hmem p (hsub.subset hpo)).mp hpo
        · intro hnear
          rcases List.mem_cons.mp hp with h | h
          · subst h; rw [hgd_la, hgd_lo] at hnear; exact absurd hnear hc
          · exact (hmem p h).mpr hnear

/-- C1: on well-formed candidates the proximity filter returns a
subsequence of the input (same relative order), a candidate is in the
output iff some track point lies at haversine distance strictly below
the threshold, and a candidate all of whose distances are at least the
threshold (equality included) is excluded. -/
theorem filter_pois_near_track_spec (gpx : GPX) (pois : List POICand) (d : ℚ)
    (hwf : ∀ p ∈ pois, p.lat ≠ none ∧ p.lon ≠ none) :
    ∃ out, filter_pois_near_track gpx pois d = .ok out ∧
      out.Sublist pois ∧
      (∀ p ∈ pois, (p ∈ out ↔ ∃ pt ∈ allPoints gpx,
        haversine (p.lat.getD 0) (p.lon.getD 0) pt.latitude pt.longitude <
          (d : ℝ))) ∧
      (∀ p ∈ pois, (∀ pt ∈ allPoints gpx,
        (d : ℝ) ≤ haversine (p.lat.getD 0) (p.lon.getD 0) pt.latitude
          pt.longitude) → p ∉ out) := by
  obtain ⟨out, h1, h2, h3⟩ := filterLoop_ok (allPoints gpx) d pois hwf
  refine ⟨out, h1, h2, h3, ?_⟩
  intro p hp hfar hpo
  obtain ⟨pt, hpt, hlt⟩ := (h3 p hp).mp hpo
  exact absurd hlt (not_lt.mpr (hfar pt hpt))

/-- Witness for C1: the filter applied to the sample track and the one
well-formed candidate sitting on the track. -/
theorem filter_pois_near_track_spec_witness :
    (∀ p ∈ [goodPOI], p.lat ≠ none ∧ p.lon ≠ none) ∧
    ∃ out, filter_pois_near_track sampleGPX [goodPOI] 100 = .ok out ∧
      out.Sublist [goodPOI] ∧
      (∀ p ∈ [goodPOI], (p ∈ out ↔ ∃ pt ∈ allPoints sampleGPX,
        haversine (p.lat.getD 0) (p.lon.getD 0) pt.latitude pt.longitude <
          ((100 : ℚ) : ℝ))) ∧
      (∀ p ∈ [goodPOI], (∀ pt ∈ allPoints sampleGPX,
        ((100 : ℚ) : ℝ) ≤ haversine (p.lat.getD 0) (p.lon.getD 0) pt.latitude
          pt.longitude) → p ∉ out) :=
  ⟨by decide, filter_pois_near_track_spec sampleGPX [goodPOI] 100 (by decide)⟩

/-- C4 counterexample: on a candidate whose `lat` field is missing the
filter does not skip the candidate and return the filtered rest (here
`[]`): the lookup `poi["lat"]` raises KeyError and the run aborts. -/
theorem filter_malformed_counterexample :
    filter_pois_near_track sampleGPX [badPOI] 100 = .error .keyError ∧
    filter_pois_near_track sampleGPX [badPOI] 100 ≠ .ok [] := by
  have h : filter_pois_near_track sampleGPX [badPOI] 100 = .error .keyError := rfl
  refine ⟨h, ?_⟩
  rw [h]
  exact fun hq => Except.noConfusion hq

/-- C4 (amended): a candidate missing its latitude or longitude is not
locally skipped — whenever the candidate list contains a malformed
element, `poi["lat"]`/`poi["lon"]` raises KeyError and the whole
filtering run aborts with that error instead of returning a filtered
list. -/
theorem filter_malformed_aborts (gpx : GPX) (pois : List POICand) (d : ℚ)
    (h : ∃ p ∈ pois, p.lat = none ∨ p.lon = none) :
    filter_pois_near_track gpx pois d = .error .keyError := by
  unfold filter_pois_near_track
  induction pois with
  | nil => simp at h
  | cons poi rest ih =>
    obtain ⟨p, hp, hbad⟩ := h
    rcases List.mem_cons.mp hp with hpe | hpr
    · subst hpe
      cases hla : p.lat with
      | none => simp only [filterLoop, hla]
      | some la =>
        cases hlo : p.lon with
        | none => simp only [filterLoop, hla, hlo]
        | some lo =>
          exfalso
          rcases hbad with hb | hb
          · rw [hla] at hb; exact Option.noConfusion hb
          · rw [hlo] at hb; exact Option.noConfusion hb
    · have herr := ih ⟨p, hpr, hbad⟩
      cases hla : poi.lat with
      | none => simp only [filterLoop, hla]
      | some la =>
        cases hlo : poi.lon with
        | none => simp only [filterLoop, hla, hlo]
        | some lo =>
          simp only [filterLoop, hla, hlo]
          by_cases hc : ∃ pt ∈ allPoints gpx,
            haversine la lo pt.latitude pt.longitude < (d : ℝ)
          · rw [if_pos hc, herr]; rfl
          · rw [if_neg hc]; exact herr

/-- Witness for C4's amended statement: a one-element candidate list
whose element is missing `lat` makes the filter signal KeyError. -/
theorem filter_malformed_aborts_witness :
    (∃ p ∈ [badPOI], p.lat = none ∨ p.lon = none) ∧
    filter_pois_near_track sampleGPX [badPOI] 100 = .error .keyError :=
  ⟨by decide, filter_malformed_aborts sampleGPX [badPOI] 100 (by decide)⟩

theorem add_waypoints_ok (gpx : GPX) :
    ∀ pois : List POICand, (∀ p ∈ pois, p.lat ≠ none ∧ p.lon ≠ none) →
    add_waypoints_to_gpx gpx pois = .ok
      ⟨gpx.tracks, gpx.waypoints ++ pois.map fun p =>
        ⟨p.lat.getD 0, p.lon.getD 0, "Water", "Water", "water-drop"⟩⟩ := by
  intro pois
  induction pois generalizing gpx with
  | nil => intro _; simp [add_waypoints_to_gpx]
  | cons poi rest ih =>
    intro hwf
    obtain ⟨la, hla⟩ :=
      Option.ne_none_iff_exists'.mp (hwf poi (List.mem_cons_self _ _)).1
    obtain ⟨lo, hlo⟩ :=
      Option.ne_none_iff_exists'.mp (hwf poi (List.mem_cons_self _ _)).2
    simp only [add_waypoints_to_gpx, hla, hlo]
    rw [ih _ fun p hp => hwf p (List.mem_cons_of_mem _ hp)]
    simp [hla, hlo, List.append_assoc]

/-- C6: on well-formed accepted candidates the waypoint merger appends
exactly one waypoint per candidate, in input order, each carrying the
candidate's coordinates, name "Water", description "Water" and symbol
"water-drop"; the waypoint count grows by exactly the candidate
count. -/
theorem add_waypoints_appends (gpx : GPX) (pois : List POICand)
    (hwf : ∀ p ∈ pois, p.lat ≠ none ∧ p.lon ≠ none) :
    ∃ g, add_waypoints_to_gpx gpx pois = .ok g ∧
      g.waypoints = gpx.waypoints ++ pois.map (fun p =>
        (⟨p.lat.getD 0, p.lon.getD 0, "Water", "Water", "water-drop"⟩ :
          Waypoint)) ∧
      g.waypoints.length = gpx.waypoints.length + pois.length := by
  refine ⟨_, add_waypoints_ok gpx pois hwf, rfl, ?_⟩
  simp

/-- Witness for C6: merging the single well-formed candidate into the
sample track. -/
theorem add_waypoints_appends_witness :
    (∀ p ∈ [goodPOI], p.lat ≠ none ∧ p.lon ≠ none) ∧
    ∃ g, add_waypoints_to_gpx sampleGPX [goodPOI] = .ok g ∧
      g.waypoints = sampleGPX.waypoints ++ [goodPOI].map (fun p =>
        (⟨p.lat.getD 0, p.lon.getD 0, "Water", "Water", "water-drop"⟩ :
          Waypoint)) ∧
      g.waypoints.length = sampleGPX.waypoints.length + [goodPOI].length :=
  ⟨by decide, add_waypoints_appends sampleGPX [goodPOI] (by decide)⟩

/-- C7: on well-formed accepted candidates the waypoint merger leaves
the track list — and hence every segment, point and their order —
untouched: only the waypoint list changes. -/
theorem add_waypoints_tracks_unchanged (gpx : GPX) (pois : List POICand)
    (hwf : ∀ p ∈ pois, p.lat ≠ none ∧ p.lon ≠ none) :
    ∃ g, add_waypoints_to_gpx gpx pois = .ok g ∧ g.tracks = gpx.tracks ∧
      allPoints g = allPoints gpx :=
  ⟨_, add_waypoints_ok gpx pois hwf, rfl, rfl⟩

/-- Witness for C7: merging the single well-formed candidate into the
sample track keeps its segments as they were. -/
theorem add_waypoints_tracks_unchanged_witness :
    (∀ p ∈ [goodPOI], p.lat ≠ none ∧ p.lon ≠ none) ∧
    ∃ g, add_waypoints_to_gpx sampleGPX [goodPOI] = .ok g ∧
      g.tracks = sampleGPX.tracks ∧ allPoints g = allPoints sampleGPX :=
  ⟨by decide, add_waypoints_tracks_unchanged sampleGPX [goodPOI] (by decide)⟩

end Thirsty
